import Mathlib

/-!
Verification of the hive_agent warden supervisor
(`src/hive_agent-warden/src/main.rs`) against its specification.

The warden's data model, its health-monitor tick, and its admin handlers are
shallowly embedded below.  External effects (TCP bind probes, HTTP health
probes, process spawning and liveness) are parameters supplied by an
environment; machine integers are `Nat` with explicit wrap where the source
casts; maps (`HashMap`) are association lists keyed by service name.
-/

set_option maxRecDepth 8000

namespace Warden

/-- Mirrors `struct ServiceConfig` (main.rs:30-47).  `u32`/`u64`/`u16` fields
are `Nat`.  `uuid` is `Option String` as in the source. -/
structure ServiceConfig where
  name : String
  uuid : Option String
  enabled : Bool
  running : Bool
  healthy : Bool
  failed : Bool
  boot_attempts : Nat
  boot_timeout_millisecs : Nat
  healthcheck_attempts : Nat
  healthcheck_timeout_millisecs : Nat
  port : Nat
  version : String
  health_path : String
deriving Repr, DecidableEq

/-- Mirrors `default_health_path` (main.rs:49-51). -/
def default_health_path : String := "healthcheck/basic"

/-- Association-list lookup, modelling `HashMap::get` keyed by service name. -/
def alookup {α : Type} : List (String × α) → String → Option α
  | [], _ => none
  | (k, v) :: rest, n => if k = n then some v else alookup rest n

/-- Update the value at a key if present, modelling mutation through
`HashMap::get_mut` (which does nothing when the key is absent). -/
def aupdate {α : Type} : List (String × α) → String → α → List (String × α)
  | [], _, _ => []
  | (k, v) :: rest, n, nv =>
    if k = n then (k, nv) :: rest else (k, v) :: aupdate rest n nv

/-- Insert-or-update, modelling `HashMap::insert` / `Entry::or_insert`. -/
def aset {α : Type} : List (String × α) → String → α → List (String × α)
  | [], n, nv => [(n, nv)]
  | (k, v) :: rest, n, nv =>
    if k = n then (k, nv) :: rest else (k, v) :: aset rest n nv

/-- Remove a key, modelling `HashMap::remove`. -/
def aremove {α : Type} (l : List (String × α)) (n : String) : List (String × α) :=
  l.filter (fun kv => kv.1 ≠ n)

/-- The values of the map, modelling `HashMap::values` (main.rs:120). -/
def avalues {α : Type} (l : List (String × α)) : List α := l.map (·.2)

/-- Mirrors `struct WardenState` (main.rs:53-57): the service registry keyed
by name plus the advisory claimed-ports list. -/
structure WardenState where
  services : List (String × ServiceConfig)
  ports_in_use : List Nat
deriving Repr, DecidableEq

/-- The set of service names with a tracked process handle, modelling the keys
of `RUNNING_PROCESSES : HashMap<String, Child>` (main.rs:26). -/
def Procs : Type := List String

/-- The per-service consecutive-failure counters
`HEALTH_CHECK_FAILURES : HashMap<String, u32>` (main.rs:27). -/
def Failures : Type := List (String × Nat)

/-- `HashMap::insert` on the process-handle table: the key set gains `n`
(re-inserting an existing key replaces the handle, leaving the key set
unchanged). -/
def insertProc (procs : List String) (n : String) : List String :=
  if procs.contains n then procs else n :: procs

/-- `HashMap::remove` on the process-handle table (main.rs:172). -/
def removeProc (procs : List String) (n : String) : List String :=
  procs.filter (fun k => k ≠ n)

-- ─────────────────────────────────────────────────────────────────────
-- Health probe (`check_service_health`, main.rs:205-228)
-- ─────────────────────────────────────────────────────────────────────

/-- Outcome of one HTTP health probe as seen by the warden: the request can
fail outright (timeout, connection refused), deliver a response whose body
cannot be read, or deliver a response with a status code and a body. -/
inductive ProbeResult where
  | err : ProbeResult
  | okNoBody (status : Nat) : ProbeResult
  | okBody (status : Nat) (body : String) : ProbeResult
deriving Repr, DecidableEq

/-- Rust's `str::trim`: strip whitespace from both ends.  Defined over the
character list so that it evaluates inside the kernel. -/
def rustTrim (s : String) : String :=
  String.mk (((s.data.dropWhile Char.isWhitespace).reverse.dropWhile
    Char.isWhitespace).reverse)

/-- Mirrors `check_service_health` (main.rs:205-228): on a delivered response
the body is read and compared, after trimming, with `"true"`.  The status code
of the response is never inspected by the source. -/
def check_service_health (r : ProbeResult) : Bool :=
  match r with
  | ProbeResult.err => false
  | ProbeResult.okNoBody _ => false
  | ProbeResult.okBody _ body => rustTrim body == "true"

/-- Modelled from the spec: the success criterion the specification states for
a health probe — response status 200 and body, after trimming whitespace,
textually equal to `"true"`. -/
def spec_health_success (r : ProbeResult) : Bool :=
  match r with
  | ProbeResult.okBody status body => status == 200 && rustTrim body == "true"
  | _ => false

-- ─────────────────────────────────────────────────────────────────────
-- Port allocator (`is_port_in_use` / `find_available_port`, main.rs:60-75)
-- ─────────────────────────────────────────────────────────────────────

/-- The environment's answer to `is_port_in_use p` (main.rs:60-65): whether a
loopback bind on port `p` fails.  Supplied as an oracle `inUse`. -/
def is_port_in_use (inUse : Nat → Bool) (port : Nat) : Bool := inUse port

/-- Auxiliary linear scan for `find_available_port`, walking `fuel` ports
upward from `port`. -/
def findAvailAux (inUse : Nat → Bool) (port : Nat) : Nat → Option Nat
  | 0 => none
  | fuel + 1 =>
    if !is_port_in_use inUse port then some port
    else findAvailAux inUse (port + 1) fuel

/-- Mirrors `find_available_port` (main.rs:68-75): ascending scan of
`start..=stop`, first free port, `none` when the range is exhausted. -/
def find_available_port (inUse : Nat → Bool) (start stop : Nat) : Option Nat :=
  findAvailAux inUse start (stop + 1 - start)

-- ─────────────────────────────────────────────────────────────────────
-- Config store (`load_services_config` / `save_services_config` /
-- `persist_to_config`, main.rs:78-125), over a JSON AST
-- ─────────────────────────────────────────────────────────────────────

/-- JSON values, the image of serde serialization for the fields used here. -/
inductive Json where
  | null : Json
  | bool (b : Bool) : Json
  | num (n : Nat) : Json
  | str (s : String) : Json
  | arr (xs : List Json) : Json
  | obj (fields : List (String × Json)) : Json
deriving Repr

/-- serde serialization of one `ServiceConfig` (derive `Serialize`):
every field is emitted, `uuid: None` as `null`. -/
def encodeService (s : ServiceConfig) : Json :=
  Json.obj
    [ ("name", Json.str s.name),
      ("uuid", match s.uuid with | none => Json.null | some u => Json.str u),
      ("enabled", Json.bool s.enabled),
      ("running", Json.bool s.running),
      ("healthy", Json.bool s.healthy),
      ("failed", Json.bool s.failed),
      ("boot_attempts", Json.num s.boot_attempts),
      ("boot_timeout_millisecs", Json.num s.boot_timeout_millisecs),
      ("healthcheck_attempts", Json.num s.healthcheck_attempts),
      ("healthcheck_timeout_millisecs", Json.num s.healthcheck_timeout_millisecs),
      ("port", Json.num s.port),
      ("version", Json.str s.version),
      ("health_path", Json.str s.health_path) ]

/-- Read a string field. -/
def asStr : Option Json → Option String
  | some (Json.str s) => some s
  | _ => none

/-- Read a boolean field. -/
def asBool : Option Json → Option Bool
  | some (Json.bool b) => some b
  | _ => none

/-- Read a numeric field. -/
def asNat : Option Json → Option Nat
  | some (Json.num n) => some n
  | _ => none

/-- serde deserialization of one `ServiceConfig` (derive `Deserialize`):
all fields required except `uuid` (`#[serde(default)]`, `null` ok) and
`health_path` (`#[serde(default = "default_health_path")]`). -/
def decodeService (j : Json) : Option ServiceConfig :=
  match j with
  | Json.obj fields => do
    let name ← asStr (alookup fields "name")
    let uuid ← match alookup fields "uuid" with
      | none => some Option.none
      | some Json.null => some Option.none
      | some (Json.str u) => some (Option.some u)
      | some _ => none
    let enabled ← asBool (alookup fields "enabled")
    let running ← asBool (alookup fields "running")
    let healthy ← asBool (alookup fields "healthy")
    let failed ← asBool (alookup fields "failed")
    let boot_attempts ← asNat (alookup fields "boot_attempts")
    let boot_timeout_millisecs ← asNat (alookup fields "boot_timeout_millisecs")
    let healthcheck_attempts ← asNat (alookup fields "healthcheck_attempts")
    let healthcheck_timeout_millisecs ←
      asNat (alookup fields "healthcheck_timeout_millisecs")
    let port ← asNat (alookup fields "port")
    let version ← asStr (alookup fields "version")
    let health_path ← match alookup fields "health_path" with
      | none => some default_health_path
      | some (Json.str s) => some s
      | some _ => none
    pure { name, uuid, enabled, running, healthy, failed, boot_attempts,
           boot_timeout_millisecs, healthcheck_attempts,
           healthcheck_timeout_millisecs, port, version, health_path }
  | _ => none

/-- Deserialize a `Vec<ServiceConfig>` element by element, failing on the
first malformed element, as serde does. -/
def decodeServices : List Json → Option (List ServiceConfig)
  | [] => some []
  | j :: rest =>
    match decodeService j, decodeServices rest with
    | some s, some l => some (s :: l)
    | _, _ => none

/-- Mirrors `load_services_config` (main.rs:78-84): parse the file content
(here: the JSON AST) as a list of records. -/
def load_services_config (j : Json) : Option (List ServiceConfig) :=
  match j with
  | Json.arr xs => decodeServices xs
  | _ => none

/-- Mirrors `save_services_config` (main.rs:87-92): serialize the list. -/
def save_services_config (l : List ServiceConfig) : Json :=
  Json.arr (l.map encodeService)

/-- The comparison `a.port.cmp(&b.port)` used by `persist_to_config`
(main.rs:121). -/
def portLE (a b : ServiceConfig) : Prop := a.port ≤ b.port

instance : DecidableRel portLE := fun a b => Nat.decLe a.port b.port

instance : IsTotal ServiceConfig portLE := ⟨fun a b => Nat.le_total a.port b.port⟩

instance : IsTrans ServiceConfig portLE := ⟨fun _ _ _ h h' => Nat.le_trans h h'⟩

/-- The registry's records sorted ascending by `port`
(`services.sort_by(|a, b| a.port.cmp(&b.port))`, main.rs:121). -/
def sortByPort (l : List ServiceConfig) : List ServiceConfig :=
  List.insertionSort portLE l

/-- Mirrors `persist_to_config` (main.rs:116-125): collect the registry's
records, sort ascending by port, and write them out. -/
def persist_to_config (st : WardenState) : Json :=
  save_services_config (sortByPort (avalues st.services))

/-- The `(name, port, enabled)` projection of a record. -/
def npeTuple (s : ServiceConfig) : String × Nat × Bool := (s.name, s.port, s.enabled)

-- ─────────────────────────────────────────────────────────────────────
-- Event traces: the order of lock operations and blocking calls
-- ─────────────────────────────────────────────────────────────────────

/-- Primitive events of the warden, in source order: acquiring/releasing the
three locks (`WARDEN_STATE`, `RUNNING_PROCESSES`, `HEALTH_CHECK_FAILURES`),
the non-blocking liveness poll, the blocking HTTP probe, spawning/killing a
process, sleeping, and the config-file disk write. -/
inductive Event where
  | regLock : Event
  | regUnlock : Event
  | procLock : Event
  | procUnlock : Event
  | failLock : Event
  | failUnlock : Event
  | pollLiveness (name : String) : Event
  | httpProbe (name : String) : Event
  | spawnProc (name : String) : Event
  | killProc (name : String) : Event
  | sleepMs (ms : Nat) : Event
  | diskWrite : Event
deriving Repr, DecidableEq

/-- Whether some event satisfying `bad` occurs while the registry lock is
held (`d` tracks the current hold depth of `WARDEN_STATE`). -/
def badUnderRegLock (bad : Event → Bool) : List Event → Nat → Bool
  | [], _ => false
  | Event.regLock :: rest, d => badUnderRegLock bad rest (d + 1)
  | Event.regUnlock :: rest, d => badUnderRegLock bad rest (d - 1)
  | e :: rest, d => (bad e && decide (0 < d)) || badUnderRegLock bad rest d

/-- Is the event an HTTP health probe? -/
def isProbe : Event → Bool
  | Event.httpProbe _ => true
  | _ => false

/-- Is the event a process spawn or kill? -/
def isSpawnOrKill : Event → Bool
  | Event.spawnProc _ => true
  | Event.killProc _ => true
  | _ => false

/-- Is the event a process spawn? -/
def isSpawn : Event → Bool
  | Event.spawnProc _ => true
  | _ => false

/-- Is the event a process kill? -/
def isKill : Event → Bool
  | Event.killProc _ => true
  | _ => false

/-- The events of `persist_to_config` (main.rs:116-125): it takes the registry
lock itself and writes the file while holding it. -/
def persistEvents : List Event := [Event.regLock, Event.diskWrite, Event.regUnlock]

/-- The events of `stop_service name` (main.rs:169-202): take the process
lock; if a handle is tracked, kill, 100 ms grace sleep, and reap while still
holding the process lock. -/
def stopServiceEvents (procs : List String) (n : String) : List Event :=
  if procs.contains n then
    [Event.procLock, Event.killProc n, Event.sleepMs 100, Event.procUnlock]
  else
    [Event.procLock, Event.procUnlock]

-- ─────────────────────────────────────────────────────────────────────
-- Admin handlers (main.rs:395-516)
-- ─────────────────────────────────────────────────────────────────────

/-- HTTP status of a handler response. -/
inductive ApiStatus where
  | ok : ApiStatus
  | notFound : ApiStatus
  | badRequest : ApiStatus
  | internalServerError : ApiStatus
deriving Repr, DecidableEq

/-- Result of an admin handler: the new registry state, the new set of
tracked process handles, the response status, every registry snapshot written
to disk (in order), and the event trace. -/
structure HandlerOut where
  state : WardenState
  procs : List String
  status : ApiStatus
  writes : List (List ServiceConfig)
  events : List Event
deriving Repr

/-- Mirrors `enable_service_handler` (main.rs:395-438).  `startOk` is the
environment's answer to `start_service` (executable present and spawn
succeeded). -/
def enable_service_handler (st : WardenState) (procs : List String)
    (name : String) (startOk : Bool) : HandlerOut :=
  match alookup st.services name with
  | none =>
    { state := st, procs := procs, status := ApiStatus.notFound,
      writes := [], events := [Event.regLock, Event.regUnlock] }
  | some service =>
    let service1 := { service with enabled := true, failed := false }
    let st1 : WardenState := { st with services := aupdate st.services name service1 }
    let ev0 := [Event.regLock, Event.regUnlock] ++ persistEvents ++ [Event.procLock]
    if procs.contains name then
      { state := st1, procs := procs, status := ApiStatus.ok,
        writes := [sortByPort (avalues st1.services)],
        events := ev0 ++ [Event.procUnlock] }
    else if startOk then
      let st2 : WardenState :=
        { st1 with services := aupdate st1.services name { service1 with running := true } }
      { state := st2, procs := insertProc procs name, status := ApiStatus.ok,
        writes := [sortByPort (avalues st1.services)],
        events := ev0 ++ [Event.procUnlock, Event.spawnProc name,
                          Event.procLock, Event.procUnlock,
                          Event.regLock, Event.regUnlock] }
    else
      { state := st1, procs := procs, status := ApiStatus.ok,
        writes := [sortByPort (avalues st1.services)],
        events := ev0 ++ [Event.procUnlock] }

/-- Mirrors `disable_service_handler` (main.rs:441-473). -/
def disable_service_handler (st : WardenState) (procs : List String)
    (name : String) : HandlerOut :=
  match alookup st.services name with
  | none =>
    { state := st, procs := procs, status := ApiStatus.notFound,
      writes := [], events := [Event.regLock, Event.regUnlock] }
  | some service =>
    let service1 := { service with enabled := false, running := false, healthy := false }
    let st1 : WardenState := { st with services := aupdate st.services name service1 }
    { state := st1, procs := removeProc procs name, status := ApiStatus.ok,
      writes := [sortByPort (avalues st1.services)],
      events := [Event.regLock, Event.regUnlock] ++ stopServiceEvents procs name
                  ++ persistEvents }

/-- Response of the port-allocation handler. -/
inductive AllocResponse where
  | success (service : String) (port : Nat) : AllocResponse
  | reassigned (service : String) (requestedPort assignedPort : Nat) : AllocResponse
  | noPorts : AllocResponse
  | missingFields : AllocResponse
deriving Repr, DecidableEq

/-- HTTP status carried by each allocation response (main.rs:487-514). -/
def allocStatus : AllocResponse → ApiStatus
  | AllocResponse.success _ _ => ApiStatus.ok
  | AllocResponse.reassigned _ _ _ => ApiStatus.ok
  | AllocResponse.noPorts => ApiStatus.internalServerError
  | AllocResponse.missingFields => ApiStatus.badRequest

/-- Result of the port-allocation handler. -/
structure AllocOut where
  state : WardenState
  response : AllocResponse
  writes : List (List ServiceConfig)
  events : List Event
deriving Repr

/-- Mirrors `allocate_port_handler` (main.rs:476-516).  `service_name` and
`preferred_port` are the JSON body's fields (`preferred_port` read `as_u64`,
then cast `as u16`, hence the wrap modulo 65536).  `inUse` is the bind
oracle. -/
def allocate_port_handler (st : WardenState) (inUse : Nat → Bool)
    (service_name : Option String) (preferred_port : Option Nat) : AllocOut :=
  match service_name, preferred_port with
  | some name, some p =>
    let port := p % 65536
    if !is_port_in_use inUse port then
      { state := { st with ports_in_use := st.ports_in_use ++ [port] },
        response := AllocResponse.success name port,
        writes := [], events := [Event.regLock, Event.regUnlock] }
    else
      match find_available_port inUse 6000 7000 with
      | some new_port =>
        { state := { st with ports_in_use := st.ports_in_use ++ [new_port] },
          response := AllocResponse.reassigned name port new_port,
          writes := [], events := [Event.regLock, Event.regUnlock] }
      | none =>
        { state := st, response := AllocResponse.noPorts,
          writes := [], events := [] }
  | _, _ =>
    { state := st, response := AllocResponse.missingFields,
      writes := [], events := [] }

-- ─────────────────────────────────────────────────────────────────────
-- Monitor tick (`monitor_services_loop`, main.rs:272-362)
-- ─────────────────────────────────────────────────────────────────────

/-- The environment of one monitor iteration for one service: whether its
tracked child is still alive (`try_wait` returned `Ok(None)`), the outcome of
the HTTP probe if one is made, and whether `start_service` succeeds if a
(re)start is attempted. -/
structure TickEnv where
  alive : Bool
  probe : ProbeResult
  startOk : Bool
deriving Repr

/-- Result of one monitor iteration for one service. -/
structure TickOut where
  services : List (String × ServiceConfig)
  procs : List String
  fails : List (String × Nat)
  events : List Event
deriving Repr

/-- One iteration of the monitor loop body for the snapshot record `service`
(main.rs:286-356).  Translated branch by branch: liveness poll under the
process lock; the registry lock is then taken and — when alive — the HTTP
probe runs with that lock still held; a failed probe increments the failure
counter, and at ≥ 3 with `boot_attempts > 0` the locks are dropped, the
process is stopped, 1 s sleep, restart; a dead enabled non-failed service is
restarted directly. -/
def monitorTickService (service : ServiceConfig)
    (services : List (String × ServiceConfig)) (procs : List String)
    (fails : List (String × Nat)) (env : TickEnv) : TickOut :=
  let is_alive := procs.contains service.name && env.alive
  let ev0 := [Event.procLock, Event.pollLiveness service.name, Event.procUnlock,
              Event.regLock]
  match alookup services service.name with
  | none => ⟨services, procs, fails, ev0 ++ [Event.regUnlock]⟩
  | some svc =>
    let svc1 := { svc with running := is_alive }
    if is_alive then
      let healthy := check_service_health env.probe
      let svc2 := { svc1 with healthy := healthy }
      if !healthy then
        let count := (alookup fails service.name).getD 0 + 1
        let fails1 := aset fails service.name count
        if 3 ≤ count ∧ 0 < svc2.boot_attempts then
          -- drop(state); drop(failures); stop; sleep 1 s; restart
          let evStop := ev0 ++ [Event.httpProbe service.name, Event.failLock,
                                Event.regUnlock, Event.failUnlock]
                            ++ stopServiceEvents procs service.name
                            ++ [Event.sleepMs 1000]
          let procs1 := removeProc procs service.name
          if env.startOk then
            ⟨aupdate services service.name
               { svc2 with running := true, boot_attempts := svc2.boot_attempts - 1 },
             insertProc procs1 service.name,
             aremove fails1 service.name,
             evStop ++ [Event.spawnProc service.name,
                        Event.procLock, Event.procUnlock,
                        Event.regLock, Event.regUnlock,
                        Event.failLock, Event.failUnlock]⟩
          else
            ⟨aupdate services service.name svc2, procs1, fails1, evStop⟩
        else
          ⟨aupdate services service.name svc2, procs, fails1,
           ev0 ++ [Event.httpProbe service.name, Event.failLock,
                   Event.failUnlock, Event.regUnlock]⟩
      else
        ⟨aupdate services service.name svc2, procs,
         aremove fails service.name,
         ev0 ++ [Event.httpProbe service.name, Event.failLock,
                 Event.failUnlock, Event.regUnlock]⟩
    else
      if svc1.enabled && !svc1.failed then
        -- drop(state); try to start it
        if env.startOk then
          ⟨aupdate (aupdate services service.name svc1) service.name
             { svc1 with running := true },
           insertProc procs service.name, fails,
           ev0 ++ [Event.regUnlock, Event.spawnProc service.name,
                   Event.procLock, Event.procUnlock,
                   Event.regLock, Event.regUnlock]⟩
        else
          ⟨aupdate services service.name svc1, procs, fails,
           ev0 ++ [Event.regUnlock]⟩
      else
        ⟨aupdate services service.name svc1, procs, fails,
         ev0 ++ [Event.regUnlock]⟩

/-- Iterated monitor ticks watching one named service.  Each tick re-reads the
snapshot of the record (main.rs:279-284) and skips the service when it is not
enabled (or is the warden itself), as the snapshot filter does. -/
def runTicks (services : List (String × ServiceConfig)) (procs : List String)
    (fails : List (String × Nat)) (name : String) :
    List TickEnv → TickOut
  | [] => ⟨services, procs, fails, []⟩
  | env :: rest =>
    match alookup services name with
    | some svc =>
      if svc.enabled && name ≠ "hive_agent-warden" then
        let o := monitorTickService svc services procs fails env
        let o2 := runTicks o.services o.procs o.fails name rest
        ⟨o2.services, o2.procs, o2.fails, o.events ++ o2.events⟩
      else
        runTicks services procs fails name rest
    | none => runTicks services procs fails name rest

-- ─────────────────────────────────────────────────────────────────────
-- Helper lemmas
-- ─────────────────────────────────────────────────────────────────────

theorem alookup_aupdate_self {α : Type} (l : List (String × α)) (n : String)
    (v₀ v : α) (h : alookup l n = some v₀) :
    alookup (aupdate l n v) n = some v := by
  induction l with
  | nil => simp [alookup] at h
  | cons kv rest ih =>
    obtain ⟨k, w⟩ := kv
    by_cases hk : k = n
    · simp [alookup, aupdate, hk]
    · simp [alookup, aupdate, hk] at h ⊢
      exact ih h

theorem aupdate_aupdate {α : Type} (l : List (String × α)) (n : String) (v w : α) :
    aupdate (aupdate l n v) n w = aupdate l n w := by
  induction l with
  | nil => simp [aupdate]
  | cons kv rest ih =>
    obtain ⟨k, u⟩ := kv
    by_cases hk : k = n
    · simp [aupdate, hk]
    · simp [aupdate, hk, ih]

theorem contains_removeProc (procs : List String) (n : String) :
    (removeProc procs n).contains n = false := by
  simp [removeProc]

theorem removeProc_idem (procs : List String) (n : String) :
    removeProc (removeProc procs n) n = removeProc procs n := by
  unfold removeProc
  rw [List.filter_filter]
  simp

theorem alookup_aremove_self {α : Type} (l : List (String × α)) (n : String) :
    alookup (aremove l n) n = none := by
  induction l with
  | nil => rfl
  | cons kv rest ih =>
    obtain ⟨k, v⟩ := kv
    by_cases hk : k = n
    · simp [aremove, List.filter_cons, hk] at ih ⊢
      exact ih
    · simp [aremove, List.filter_cons, hk, alookup] at ih ⊢
      simpa [alookup, hk] using ih

theorem contains_insertProc (l : List String) (n : String) :
    (insertProc l n).contains n = true := by
  unfold insertProc
  by_cases hm : n ∈ l
  · simp [hm]
  · simp [hm]

/-- serde round trip on one record. -/
theorem decodeService_encodeService (s : ServiceConfig) :
    decodeService (encodeService s) = some s := by
  obtain ⟨name, uuid, e, r, h, f, ba, bt, ha, ht, p, v, hp⟩ := s
  cases uuid <;> rfl

theorem decodeServices_map_encode (l : List ServiceConfig) :
    decodeServices (l.map encodeService) = some l := by
  induction l with
  | nil => rfl
  | cons s rest ih =>
    simp [decodeServices, decodeService_encodeService, ih]

theorem findAvailAux_none_iff (inUse : Nat → Bool) (fuel : Nat) :
    ∀ s, findAvailAux inUse s fuel = none ↔ ∀ i, i < fuel → inUse (s + i) = true := by
  induction fuel with
  | zero => intro s; simp [findAvailAux]
  | succ f ih =>
    intro s
    simp only [findAvailAux, is_port_in_use]
    by_cases h : inUse s = true
    · rw [if_neg (by simp [h]), ih (s + 1)]
      constructor
      · intro hall i hi
        cases i with
        | zero => simpa using h
        | succ j =>
          have hj := hall j (by omega)
          have : s + 1 + j = s + (j + 1) := by omega
          rwa [this] at hj
      · intro hall i hi
        have hj := hall (i + 1) (by omega)
        have : s + (i + 1) = s + 1 + i := by omega
        rwa [this] at hj
    · rw [if_pos (by simp [h])]
      constructor
      · intro hcontra; exact absurd hcontra (by simp)
      · intro hall
        have h0 := hall 0 (by omega)
        simp at h0
        exact absurd h0 h

theorem findAvailAux_some_first (inUse : Nat → Bool) (fuel : Nat) :
    ∀ s p, findAvailAux inUse s fuel = some p →
      s ≤ p ∧ p < s + fuel ∧ inUse p = false ∧
        ∀ q, s ≤ q → q < p → inUse q = true := by
  induction fuel with
  | zero => intro s p h; simp [findAvailAux] at h
  | succ f ih =>
    intro s p h
    simp only [findAvailAux, is_port_in_use] at h
    by_cases hs : inUse s = true
    · rw [if_neg (by simp [hs])] at h
      obtain ⟨h1, h2, h3, h4⟩ := ih (s + 1) p h
      refine ⟨by omega, by omega, h3, ?_⟩
      intro q hq1 hq2
      rcases Nat.eq_or_lt_of_le hq1 with heq | hlt
      · exact heq ▸ hs
      · exact h4 q (by omega) hq2
    · rw [if_pos (by simp [hs])] at h
      have hp : p = s := by injection h with h; omega
      subst hp
      refine ⟨Nat.le_refl _, by omega, by simpa using hs, ?_⟩
      intro q hq1 hq2
      omega

/-- `find_available_port` over `[a, b]` is empty exactly when the whole range
is busy. -/
theorem find_available_port_none_iff (inUse : Nat → Bool) (a b : Nat) :
    find_available_port inUse a b = none ↔
      ∀ p, a ≤ p → p ≤ b → inUse p = true := by
  unfold find_available_port
  refine (findAvailAux_none_iff inUse (b + 1 - a) a).trans ⟨?_, ?_⟩
  · intro h p h1 h2
    have h3 := h (p - a) (by omega)
    have heq : a + (p - a) = p := by omega
    rwa [heq] at h3
  · intro h i hi
    exact h (a + i) (by omega) (by omega)

/-- A port returned by `find_available_port` over `[a, b]` is the first free
port of the range under the ascending scan. -/
theorem find_available_port_first_free (inUse : Nat → Bool) (a b p : Nat)
    (h : find_available_port inUse a b = some p) :
    a ≤ p ∧ p ≤ b ∧ inUse p = false ∧
      ∀ q, a ≤ q → q < p → inUse q = true := by
  unfold find_available_port at h
  obtain ⟨h1, h2, h3, h4⟩ := findAvailAux_some_first inUse _ _ _ h
  exact ⟨h1, by omega, h3, h4⟩

-- ─────────────────────────────────────────────────────────────────────
-- Claims
-- ─────────────────────────────────────────────────────────────────────

/-- C2 (counterexample): the claim states a probe succeeds only with HTTP
status 200, but `check_service_health` never inspects the status code: a
response with status 404 and body `"true"` is counted a success by the code
while the claimed criterion rejects it. -/
theorem C2_status_ignored_counterexample :
    check_service_health (ProbeResult.okBody 404 "true") = true ∧
      spec_health_success (ProbeResult.okBody 404 "true") = false := by
  constructor <;> rfl

/-- C2 (amended): a health probe succeeds if and only if an HTTP response is
delivered whose body can be read and, after trimming whitespace, equals
`"true"` — regardless of the status code; every transport failure or
unreadable body counts as a failure. -/
theorem C2_health_success_criterion (r : ProbeResult) :
    check_service_health r = true ↔
      ∃ status body, r = ProbeResult.okBody status body ∧ rustTrim body = "true" := by
  cases r with
  | err => simp [check_service_health]
  | okNoBody s => simp [check_service_health]
  | okBody s b =>
    simp only [check_service_health, beq_iff_eq]
    constructor
    · intro h; exact ⟨s, b, rfl, h⟩
    · rintro ⟨st, bd, heq, htrim⟩
      cases heq
      exact htrim

/-- C5: persisting the registry writes the full record list sorted ascending
by port, and reloading what was written returns exactly that sorted list, so
the multiset of `(name, port, enabled)` tuples is preserved and the loaded
list is ordered by ascending port. -/
theorem C5_persist_roundtrip (st : WardenState) :
    load_services_config (persist_to_config st)
        = some (sortByPort (avalues st.services)) ∧
      List.Sorted portLE (sortByPort (avalues st.services)) ∧
      List.Perm ((sortByPort (avalues st.services)).map npeTuple)
        ((avalues st.services).map npeTuple) := by
  refine ⟨?_, ?_, ?_⟩
  · simp [persist_to_config, save_services_config, load_services_config,
          decodeServices_map_encode]
  · exact List.sorted_insertionSort portLE (avalues st.services)
  · exact (List.perm_insertionSort portLE (avalues st.services)).map npeTuple

/-- A concrete record used to instantiate witnesses. -/
def sampleService : ServiceConfig :=
  { name := "rag", uuid := some "u-1", enabled := true, running := true,
    healthy := true, failed := false, boot_attempts := 2,
    boot_timeout_millisecs := 30000, healthcheck_attempts := 3,
    healthcheck_timeout_millisecs := 5000, port := 6020, version := "0.1.0",
    health_path := "healthcheck/basic" }

/-- C8: allocation fails `BadRequest` when a field is missing; a free
preferred port is recorded and returned unchanged; a busy preferred port is
reassigned to the first free port of the ascending scan of `[6000, 7000]`,
which is recorded; and (preferred busy) a server error is returned iff no
port in that range is free. -/
theorem C8_allocate_port_contract (st : WardenState) (inUse : Nat → Bool) :
    (∀ p, (allocate_port_handler st inUse none p).response
        = AllocResponse.missingFields
      ∧ allocStatus (allocate_port_handler st inUse none p).response
        = ApiStatus.badRequest) ∧
    (∀ n, (allocate_port_handler st inUse n none).response
        = AllocResponse.missingFields
      ∧ allocStatus (allocate_port_handler st inUse n none).response
        = ApiStatus.badRequest) ∧
    (∀ name p, p < 65536 → inUse p = false →
      (allocate_port_handler st inUse (some name) (some p)).response
        = AllocResponse.success name p
      ∧ (allocate_port_handler st inUse (some name) (some p)).state.ports_in_use
        = st.ports_in_use ++ [p]) ∧
    (∀ name p np, p < 65536 → inUse p = true →
      find_available_port inUse 6000 7000 = some np →
      (allocate_port_handler st inUse (some name) (some p)).response
        = AllocResponse.reassigned name p np
      ∧ (allocate_port_handler st inUse (some name) (some p)).state.ports_in_use
        = st.ports_in_use ++ [np]
      ∧ 6000 ≤ np ∧ np ≤ 7000 ∧ inUse np = false
      ∧ ∀ q, 6000 ≤ q → q < np → inUse q = true) ∧
    (∀ name p, p < 65536 → inUse p = true →
      (allocStatus (allocate_port_handler st inUse (some name) (some p)).response
          = ApiStatus.internalServerError
        ↔ ∀ q, 6000 ≤ q → q ≤ 7000 → inUse q = true)) := by
  refine ⟨?_, ?_, ?_, ?_, ?_⟩
  · intro p
    cases p <;> exact ⟨rfl, rfl⟩
  · intro n
    cases n <;> exact ⟨rfl, rfl⟩
  · intro name p hlt hfree
    simp [allocate_port_handler, is_port_in_use, Nat.mod_eq_of_lt hlt, hfree]
  · intro name p np hlt hbusy hfind
    have hfirst := find_available_port_first_free inUse 6000 7000 np hfind
    simp only [allocate_port_handler, is_port_in_use, Nat.mod_eq_of_lt hlt,
               hbusy, hfind, Bool.not_true, Bool.false_eq_true, if_false]
    refine ⟨?_, ?_, hfirst.1, hfirst.2.1, hfirst.2.2.1, hfirst.2.2.2⟩ <;> trivial
  · intro name p hlt hbusy
    simp only [allocate_port_handler, is_port_in_use, Nat.mod_eq_of_lt hlt,
               hbusy, Bool.not_true, Bool.false_eq_true, if_false]
    cases hfind : find_available_port inUse 6000 7000 with
    | none =>
      simp only [allocStatus]
      exact ⟨fun _ => (find_available_port_none_iff inUse 6000 7000).mp hfind,
             fun _ => by trivial⟩
    | some np =>
      simp only [allocStatus]
      constructor
      · intro hcontra; exact absurd hcontra (by simp)
      · intro hall
        have : find_available_port inUse 6000 7000 = none :=
          (find_available_port_none_iff inUse 6000 7000).mpr hall
        rw [hfind] at this
        exact absurd this (by simp)

/-- Witness for C8 at a concrete input: all ports busy except 6001, preferred
6000 busy, so the allocation is reassigned to 6001. -/
theorem C8_allocate_port_contract_witness :
    (6000 : Nat) < 65536 ∧ (fun q => decide (q ≠ 6001)) 6000 = true ∧
    find_available_port (fun q => decide (q ≠ 6001)) 6000 7000 = some 6001 ∧
    (allocate_port_handler ⟨[("rag", sampleService)], []⟩
        (fun q => decide (q ≠ 6001)) (some "rag") (some 6000)).response
      = AllocResponse.reassigned "rag" 6000 6001 :=
  ⟨by decide, by decide, by decide,
   ((C8_allocate_port_contract ⟨[("rag", sampleService)], []⟩
       (fun q => decide (q ≠ 6001))).2.2.2.1 "rag" 6000 6001
     (by decide) (by decide) (by decide)).1⟩

/-- C10: a successful allocation (preferred or reassigned) modifies no
service record, leaves the named service's record (hence its `port` field)
untouched, appends exactly one port to the claimed-ports list, and performs
no registry persistence. -/
theorem C10_allocate_frame (st : WardenState) (inUse : Nat → Bool)
    (name : String) (p : Nat)
    (hok : allocStatus (allocate_port_handler st inUse (some name) (some p)).response
      = ApiStatus.ok) :
    (allocate_port_handler st inUse (some name) (some p)).state.services
        = st.services
    ∧ (allocate_port_handler st inUse (some name) (some p)).writes = []
    ∧ (∃ q, (allocate_port_handler st inUse (some name) (some p)).state.ports_in_use
        = st.ports_in_use ++ [q])
    ∧ ∀ svc, alookup st.services name = some svc →
        alookup (allocate_port_handler st inUse (some name) (some p)).state.services
          name = some svc := by
  by_cases hfree : inUse (p % 65536) = false
  · simp only [allocate_port_handler, is_port_in_use, hfree, Bool.not_false,
               if_true]
    refine ⟨?_, ?_, ⟨p % 65536, ?_⟩, fun svc h => ?_⟩ <;> trivial
  · rw [Bool.not_eq_false] at hfree
    cases hfind : find_available_port inUse 6000 7000 with
    | none =>
      exfalso
      simp only [allocate_port_handler, is_port_in_use, hfree, hfind,
                 Bool.not_true, Bool.false_eq_true, if_false, allocStatus] at hok
      exact absurd hok (by simp)
    | some np =>
      simp only [allocate_port_handler, is_port_in_use, hfree, hfind,
                 Bool.not_true, Bool.false_eq_true, if_false]
      refine ⟨?_, ?_, ⟨np, ?_⟩, fun svc h => ?_⟩ <;> trivial

/-- C9: on an unknown service name both per-service handlers answer
`NotFound` and leave the registry, the process-handle table and the persisted
file untouched (no write is performed). -/
theorem C9_unknown_service_not_found (st : WardenState) (procs : List String)
    (name : String) (startOk : Bool) (h : alookup st.services name = none) :
    (enable_service_handler st procs name startOk).state = st ∧
    (enable_service_handler st procs name startOk).procs = procs ∧
    (enable_service_handler st procs name startOk).status = ApiStatus.notFound ∧
    (enable_service_handler st procs name startOk).writes = [] ∧
    (disable_service_handler st procs name).state = st ∧
    (disable_service_handler st procs name).procs = procs ∧
    (disable_service_handler st procs name).status = ApiStatus.notFound ∧
    (disable_service_handler st procs name).writes = [] := by
  simp [enable_service_handler, disable_service_handler, h]

/-- Witness for C9 at a concrete registry that does not know `"ghost"`. -/
theorem C9_unknown_service_not_found_witness :
    alookup ([("rag", sampleService)] : List (String × ServiceConfig)) "ghost"
        = none ∧
    (disable_service_handler ⟨[("rag", sampleService)], []⟩ ["rag"] "ghost").status
        = ApiStatus.notFound :=
  ⟨by decide,
   (C9_unknown_service_not_found ⟨[("rag", sampleService)], []⟩ ["rag"] "ghost"
      true (by decide)).2.2.2.2.2.2.1⟩

/-- C6: for a known service, `disable` sets `enabled=false`, `running=false`,
`healthy=false`, removes the tracked process handle, and is idempotent: a
second `disable` leaves the registry state and the handle table exactly as
after the first. -/
theorem C6_disable_idempotent (st : WardenState) (procs : List String)
    (name : String) (svc : ServiceConfig)
    (h : alookup st.services name = some svc) :
    alookup (disable_service_handler st procs name).state.services name
        = some { svc with enabled := false, running := false, healthy := false } ∧
    (disable_service_handler st procs name).procs.contains name = false ∧
    (disable_service_handler st procs name).status = ApiStatus.ok ∧
    (disable_service_handler
        (disable_service_handler st procs name).state
        (disable_service_handler st procs name).procs name).state
      = (disable_service_handler st procs name).state ∧
    (disable_service_handler
        (disable_service_handler st procs name).state
        (disable_service_handler st procs name).procs name).procs
      = (disable_service_handler st procs name).procs := by
  have h1 : alookup (aupdate st.services name
      { svc with enabled := false, running := false, healthy := false }) name
      = some { svc with enabled := false, running := false, healthy := false } :=
    alookup_aupdate_self st.services name svc _ h
  refine ⟨?_, ?_, ?_, ?_, ?_⟩
  · simp [disable_service_handler, h, h1]
  · simp only [disable_service_handler, h]
    exact contains_removeProc procs name
  · simp [disable_service_handler, h]
  · simp [disable_service_handler, h, h1, aupdate_aupdate]
  · simp [disable_service_handler, h, h1, removeProc_idem]

/-- Witness for C6 at a concrete state with a live handle for `"rag"`. -/
theorem C6_disable_idempotent_witness :
    alookup ([("rag", sampleService)] : List (String × ServiceConfig)) "rag"
        = some sampleService ∧
    (disable_service_handler ⟨[("rag", sampleService)], [6020]⟩ ["rag"] "rag").procs.contains "rag" = false :=
  ⟨by decide,
   (C6_disable_idempotent ⟨[("rag", sampleService)], [6020]⟩ ["rag"] "rag"
      sampleService (by decide)).2.1⟩

/-- C7: for a known service, `enable` sets `enabled=true` and clears `failed`
while leaving every other field of the record — `uuid`, `bootAttempts`, the
timeouts, `port`, `version`, `healthPath`, `healthy` — unchanged; when a
handle is already tracked nothing is started and `running` is also unchanged;
when no handle is tracked and the executable is valid the service is started
within the call itself, ending with `running=true` and a tracked handle. -/
theorem C7_enable_frame (st : WardenState) (procs : List String) (name : String)
    (startOk : Bool) (svc : ServiceConfig)
    (h : alookup st.services name = some svc) :
    (∃ svc2, alookup (enable_service_handler st procs name startOk).state.services
          name = some svc2
        ∧ svc2.enabled = true ∧ svc2.failed = false
        ∧ svc2.name = svc.name ∧ svc2.uuid = svc.uuid
        ∧ svc2.healthy = svc.healthy
        ∧ svc2.boot_attempts = svc.boot_attempts
        ∧ svc2.boot_timeout_millisecs = svc.boot_timeout_millisecs
        ∧ svc2.healthcheck_attempts = svc.healthcheck_attempts
        ∧ svc2.healthcheck_timeout_millisecs = svc.healthcheck_timeout_millisecs
        ∧ svc2.port = svc.port ∧ svc2.version = svc.version
        ∧ svc2.health_path = svc.health_path)
    ∧ (procs.contains name = true →
        alookup (enable_service_handler st procs name startOk).state.services name
            = some { svc with enabled := true, failed := false }
          ∧ (enable_service_handler st procs name startOk).procs = procs)
    ∧ (procs.contains name = false → startOk = true →
        alookup (enable_service_handler st procs name startOk).state.services name
            = some { svc with enabled := true, failed := false, running := true }
          ∧ (enable_service_handler st procs name startOk).procs.contains name
            = true) := by
  have h1 : alookup (aupdate st.services name
      { svc with enabled := true, failed := false }) name
      = some { svc with enabled := true, failed := false } :=
    alookup_aupdate_self st.services name svc _ h
  by_cases hc : procs.contains name = true
  · have hm : name ∈ procs := by simpa using hc
    refine ⟨⟨{ svc with enabled := true, failed := false }, ?_⟩,
      fun _ => ?_, fun hcontra _ => ?_⟩
    · simp [enable_service_handler, h, hm, h1]
    · constructor <;> simp [enable_service_handler, h, hm, h1]
    · rw [hc] at hcontra; exact absurd hcontra (by simp)
  · rw [Bool.not_eq_true] at hc
    have hm : name ∉ procs := by
      intro hmem
      rw [List.contains_eq_any_beq] at hc
      refine absurd ?_ (hc ▸ Bool.false_ne_true)
      exact List.any_eq_true.mpr ⟨name, hmem, by simp⟩
    by_cases hs : startOk = true
    · have h2 : alookup (aupdate (aupdate st.services name
          { svc with enabled := true, failed := false }) name
          { svc with enabled := true, failed := false, running := true }) name
          = some { svc with enabled := true, failed := false, running := true } := by
        rw [aupdate_aupdate]
        exact alookup_aupdate_self st.services name svc _ h
      refine ⟨⟨{ svc with enabled := true, failed := false, running := true }, ?_⟩,
        fun hcontra => ?_, fun _ _ => ?_⟩
      · simp [enable_service_handler, h, hm, hs, h2]
      · rw [hcontra] at hc; simp at hc
      · constructor <;> simp [enable_service_handler, h, hm, hs, h2, insertProc]
    · rw [Bool.not_eq_true] at hs
      refine ⟨⟨{ svc with enabled := true, failed := false }, ?_⟩,
        fun hcontra => ?_, fun _ hcontra => ?_⟩
      · simp [enable_service_handler, h, hm, hs, h1]
      · rw [hcontra] at hc; simp at hc
      · rw [hs] at hcontra; exact absurd hcontra (by simp)

/-- Witness for C7: enabling `"rag"` with no tracked handle and a valid
executable starts it within the call. -/
theorem C7_enable_frame_witness :
    alookup ([("rag", sampleService)] : List (String × ServiceConfig)) "rag"
        = some sampleService ∧
    ([] : List String).contains "rag" = false ∧
    (enable_service_handler ⟨[("rag", sampleService)], []⟩ [] "rag" true).procs.contains "rag" = true :=
  ⟨by decide, by decide,
   ((C7_enable_frame ⟨[("rag", sampleService)], []⟩ [] "rag" true sampleService
      (by decide)).2.2 (by decide) rfl).2⟩

/-- Witness for C10: a concrete successful allocation leaves the registry's
records and the disk untouched and appends the granted port. -/
theorem C10_allocate_frame_witness :
    allocStatus (allocate_port_handler ⟨[("rag", sampleService)], [6020]⟩
        (fun _ => false) (some "rag") (some 6005)).response = ApiStatus.ok ∧
    (allocate_port_handler ⟨[("rag", sampleService)], [6020]⟩
        (fun _ => false) (some "rag") (some 6005)).state.services
      = [("rag", sampleService)] :=
  ⟨by decide,
   (C10_allocate_frame ⟨[("rag", sampleService)], [6020]⟩
      (fun _ => false) "rag" 6005 (by decide)).1⟩

/-- Reduction of one monitor iteration on the three-strikes restart path:
alive process, failed probe, counter reaching 3, positive restart budget,
successful restart. -/
theorem monitorTick_restart_eq (service : ServiceConfig)
    (services : List (String × ServiceConfig)) (procs : List String)
    (fails : List (String × Nat)) (env : TickEnv)
    (h : alookup services service.name = some service)
    (hp : procs.contains service.name = true)
    (ha : env.alive = true)
    (hcheck : check_service_health env.probe = false)
    (hcount : alookup fails service.name = some 2)
    (hboot : 0 < service.boot_attempts)
    (hstart : env.startOk = true) :
    monitorTickService service services procs fails env =
      ⟨aupdate services service.name
         { service with
            running := true, healthy := false,
            boot_attempts := service.boot_attempts - 1 },
       insertProc (removeProc procs service.name) service.name,
       aremove (aset fails service.name 3) service.name,
       [Event.procLock, Event.pollLiveness service.name, Event.procUnlock,
        Event.regLock, Event.httpProbe service.name, Event.failLock,
        Event.regUnlock, Event.failUnlock, Event.procLock,
        Event.killProc service.name, Event.sleepMs 100, Event.procUnlock,
        Event.sleepMs 1000, Event.spawnProc service.name, Event.procLock,
        Event.procUnlock, Event.regLock, Event.regUnlock, Event.failLock,
        Event.failUnlock]⟩ := by
  simp only [monitorTickService, h, hp, ha, hcheck, hcount, hstart,
             Option.getD, Bool.and_self, if_true, Bool.not_false,
             stopServiceEvents]
  rw [if_pos (⟨by omega, hboot⟩ : 3 ≤ 2 + 1 ∧ 0 < service.boot_attempts)]
  simp [hp]

/-- C1: when an alive enabled service fails its probe and the consecutive
failure counter reaches 3 while `bootAttempts > 0` (and the restart spawn
succeeds), that same tick stops the process once, sleeps 1 s, starts it once
— as witnessed by the exact event trace, with exactly one kill and one spawn —
decrements `bootAttempts` by exactly 1, and resets the failure counter to 0
(its entry is removed). -/
theorem C1_restart_after_three_failures (service : ServiceConfig)
    (services : List (String × ServiceConfig)) (procs : List String)
    (fails : List (String × Nat)) (env : TickEnv)
    (h : alookup services service.name = some service)
    (hp : procs.contains service.name = true)
    (ha : env.alive = true)
    (hcheck : check_service_health env.probe = false)
    (hcount : alookup fails service.name = some 2)
    (hboot : 0 < service.boot_attempts)
    (hstart : env.startOk = true) :
    (∃ svc2, alookup (monitorTickService service services procs fails env).services
          service.name = some svc2
        ∧ svc2.running = true ∧ svc2.healthy = false
        ∧ svc2.boot_attempts + 1 = service.boot_attempts)
    ∧ alookup (monitorTickService service services procs fails env).fails
        service.name = none
    ∧ (monitorTickService service services procs fails env).procs.contains
        service.name = true
    ∧ (monitorTickService service services procs fails env).events.countP isSpawn = 1
    ∧ (monitorTickService service services procs fails env).events.countP isKill = 1
    ∧ (monitorTickService service services procs fails env).events
      = [Event.procLock, Event.pollLiveness service.name, Event.procUnlock,
         Event.regLock, Event.httpProbe service.name, Event.failLock,
         Event.regUnlock, Event.failUnlock, Event.procLock,
         Event.killProc service.name, Event.sleepMs 100, Event.procUnlock,
         Event.sleepMs 1000, Event.spawnProc service.name, Event.procLock,
         Event.procUnlock, Event.regLock, Event.regUnlock, Event.failLock,
         Event.failUnlock] := by
  rw [monitorTick_restart_eq service services procs fails env h hp ha hcheck
      hcount hboot hstart]
  refine ⟨⟨{ service with
              running := true, healthy := false,
              boot_attempts := service.boot_attempts - 1 },
           alookup_aupdate_self services service.name service _ h,
           rfl, rfl, by simp; omega⟩,
          alookup_aremove_self _ _,
          contains_insertProc _ _, ?_, ?_, rfl⟩
  · simp [List.countP_cons, isSpawn]
  · simp [List.countP_cons, isKill]

/-- Witness for C1: with `"rag"` alive, failing its third consecutive probe
(status 200 but body `"false"`), and two boot attempts left, the tick
decrements the budget to 1 and clears the failure counter. -/
theorem C1_restart_after_three_failures_witness :
    check_service_health (ProbeResult.okBody 200 "false") = false ∧
    0 < sampleService.boot_attempts ∧
    alookup (monitorTickService sampleService [("rag", sampleService)] ["rag"]
        [("rag", 2)] ⟨true, ProbeResult.okBody 200 "false", true⟩).fails
      sampleService.name = none :=
  ⟨by decide, by decide,
   (C1_restart_after_three_failures sampleService [("rag", sampleService)]
      ["rag"] [("rag", 2)] ⟨true, ProbeResult.okBody 200 "false", true⟩
      (by decide) (by decide) rfl (by decide) (by decide) (by decide) rfl).2.1⟩

/-- Reduction of one monitor iteration on the exhausted-budget path: alive
process, failed probe, `boot_attempts = 0`.  The counter still increments but
no stop/spawn happens and the budget check short-circuits the restart. -/
theorem monitorTick_exhausted_eq (service : ServiceConfig)
    (services : List (String × ServiceConfig)) (procs : List String)
    (fails : List (String × Nat)) (env : TickEnv)
    (h : alookup services service.name = some service)
    (hp : procs.contains service.name = true)
    (ha : env.alive = true)
    (hcheck : check_service_health env.probe = false)
    (hb : service.boot_attempts = 0) :
    monitorTickService service services procs fails env =
      ⟨aupdate services service.name
         { service with running := true, healthy := false },
       procs,
       aset fails service.name ((alookup fails service.name).getD 0 + 1),
       [Event.procLock, Event.pollLiveness service.name, Event.procUnlock,
        Event.regLock, Event.httpProbe service.name, Event.failLock,
        Event.failUnlock, Event.regUnlock]⟩ := by
  simp only [monitorTickService, h, hp, ha, hcheck, Bool.and_self, if_true,
             Bool.not_false]
  rw [if_neg (fun hcon => absurd hcon.2 (by omega))]
  rfl

/-- C3: once `bootAttempts` is 0, an enabled service whose process stays
alive but keeps failing its probes is never respawned: across any sequence of
failing ticks no spawn event occurs, the handle table is untouched, the
budget stays 0, the record stays enabled, and it is unhealthy after every
non-empty run. -/
theorem C3_no_spawn_when_exhausted (name : String) (envs : List TickEnv) :
    ∀ (services : List (String × ServiceConfig)) (procs : List String)
      (fails : List (String × Nat)) (svc : ServiceConfig),
    alookup services name = some svc →
    svc.name = name →
    svc.enabled = true →
    svc.boot_attempts = 0 →
    name ≠ "hive_agent-warden" →
    procs.contains name = true →
    (∀ e ∈ envs, e.alive = true ∧ check_service_health e.probe = false) →
    (runTicks services procs fails name envs).events.countP isSpawn = 0
    ∧ (runTicks services procs fails name envs).procs = procs
    ∧ ∃ svc2, alookup (runTicks services procs fails name envs).services name
          = some svc2
        ∧ svc2.boot_attempts = 0 ∧ svc2.enabled = true
        ∧ (envs = [] → svc2 = svc)
        ∧ (envs ≠ [] → svc2.healthy = false) := by
  induction envs with
  | nil =>
    intro services procs fails svc h hn he hb hw hp henvs
    exact ⟨rfl, rfl, svc, h, hb, he, fun _ => rfl, fun hne => absurd rfl hne⟩
  | cons e rest ih =>
    intro services procs fails svc h hn he hb hw hp henvs
    obtain ⟨hea, hec⟩ := henvs e (List.mem_cons_self e rest)
    have hstep := monitorTick_exhausted_eq svc services procs fails e
      (hn ▸ h) (hn ▸ hp) hea hec hb
    have hlook2 : alookup (aupdate services svc.name
        { svc with running := true, healthy := false }) name
        = some { svc with running := true, healthy := false } := by
      rw [hn]
      exact alookup_aupdate_self services name svc _ h
    simp only [runTicks, h]
    rw [if_pos (by simp [he, hw])]
    simp only [hstep]
    obtain ⟨ihev, ihprocs, svc2, ihlook, ihb, ihe, ihnil, ihh⟩ :=
      ih (aupdate services svc.name { svc with running := true, healthy := false })
        procs (aset fails svc.name ((alookup fails svc.name).getD 0 + 1))
        { svc with running := true, healthy := false }
        hlook2 (by simp [hn]) (by simp [he]) (by simp [hb]) hw hp
        (fun e2 he2 => henvs e2 (List.mem_cons_of_mem e he2))
    refine ⟨?_, ihprocs, svc2, ihlook, ihb, ihe, fun hcon => ?_, fun _ => ?_⟩
    · rw [List.countP_append]
      simp only [ihev]
      simp [isSpawn]
    · exact absurd hcon (by simp)
    · by_cases hrest : rest = []
      · rw [ihnil hrest]
      · exact ihh hrest

/-- A circuit-broken variant of the sample record: restart budget exhausted. -/
def exhaustedService : ServiceConfig := { sampleService with boot_attempts := 0 }

/-- Witness for C3: two consecutive failing ticks (bad body, then transport
error) on an exhausted service spawn nothing. -/
theorem C3_no_spawn_when_exhausted_witness :
    exhaustedService.boot_attempts = 0 ∧
    (runTicks [("rag", exhaustedService)] ["rag"] [] "rag"
        [⟨true, ProbeResult.okBody 200 "nope", true⟩,
         ⟨true, ProbeResult.err, true⟩]).events.countP isSpawn = 0 :=
  ⟨rfl,
   (C3_no_spawn_when_exhausted "rag"
      [⟨true, ProbeResult.okBody 200 "nope", true⟩, ⟨true, ProbeResult.err, true⟩]
      [("rag", exhaustedService)] ["rag"] [] exhaustedService
      (by decide) (by decide) (by decide) (by decide) (by decide) (by decide)
      (by decide)).1⟩

/-- C4 (counterexample): the claim that the registry lock is never held
across a network health probe is false — in the monitor tick on an alive
service the probe runs between acquiring and releasing the `WARDEN_STATE`
lock (main.rs:297-303). -/
theorem C4_probe_under_registry_lock_counterexample :
    badUnderRegLock isProbe
      (monitorTickService sampleService [("rag", sampleService)] ["rag"] []
        ⟨true, ProbeResult.okBody 200 "true", true⟩).events 0 = true := by
  decide

/-- C4 (amended): the registry lock is released before every process spawn or
kill, in the monitor tick and in the enable/disable/allocate handlers, and
the admin handlers never probe; but the monitor tick performs its HTTP health
probe on an alive tracked service while holding the registry lock. -/
theorem C4_registry_lock_discipline
    (service : ServiceConfig) (services : List (String × ServiceConfig))
    (procs : List String) (fails : List (String × Nat)) (env : TickEnv)
    (st : WardenState) (name : String) (startOk : Bool)
    (inUse : Nat → Bool) (sname : Option String) (pport : Option Nat) :
    badUnderRegLock isSpawnOrKill
        (monitorTickService service services procs fails env).events 0 = false
    ∧ badUnderRegLock isSpawnOrKill
        (enable_service_handler st procs name startOk).events 0 = false
    ∧ badUnderRegLock isProbe
        (enable_service_handler st procs name startOk).events 0 = false
    ∧ badUnderRegLock isSpawnOrKill
        (disable_service_handler st procs name).events 0 = false
    ∧ badUnderRegLock isProbe
        (disable_service_handler st procs name).events 0 = false
    ∧ badUnderRegLock isSpawnOrKill
        (allocate_port_handler st inUse sname pport).events 0 = false
    ∧ (alookup services service.name = some service →
        procs.contains service.name = true →
        env.alive = true →
        badUnderRegLock isProbe
          (monitorTickService service services procs fails env).events 0 = true) := by
  refine ⟨?_, ?_, ?_, ?_, ?_, ?_, ?_⟩
  · -- monitor tick never spawns or kills under the registry lock
    cases halook : alookup services service.name with
    | none => simp [monitorTickService, halook, badUnderRegLock, isSpawnOrKill]
    | some svc =>
      by_cases halive : (procs.contains service.name && env.alive) = true
      · have hpc : procs.contains service.name = true :=
          (Bool.and_eq_true _ _ |>.mp halive).1
        have hal : env.alive = true := (Bool.and_eq_true _ _ |>.mp halive).2
        have hmem : service.name ∈ procs := by simpa using hpc
        by_cases hh : (!check_service_health env.probe) = true
        · by_cases hcnt : 2 ≤ (alookup fails service.name).getD 0 ∧
              0 < svc.boot_attempts
          · by_cases hst : env.startOk = true
            · simp [monitorTickService, halook, hh, hcnt, hst, hmem, hal,
                    stopServiceEvents, badUnderRegLock, isSpawnOrKill]
            · simp [monitorTickService, halook, hh, hcnt, hst, hmem, hal,
                    stopServiceEvents, badUnderRegLock, isSpawnOrKill]
          · simp [monitorTickService, halook, hh, hcnt, hmem, hal,
                  badUnderRegLock, isSpawnOrKill]
        · simp [monitorTickService, halook, hh, hmem, hal,
                badUnderRegLock, isSpawnOrKill]
      · have hneg : ¬(service.name ∈ procs ∧ env.alive = true) := by
          simpa [Bool.and_eq_true] using halive
        by_cases hsf : (svc.enabled && !svc.failed) = true
        · have hen : svc.enabled = true := (Bool.and_eq_true _ _ |>.mp hsf).1
          have hfa : svc.failed = false := by
            have h2 := (Bool.and_eq_true _ _ |>.mp hsf).2
            simpa using h2
          by_cases hst : env.startOk = true
          · simp [monitorTickService, halook, hneg, hen, hfa, hst,
                  badUnderRegLock, isSpawnOrKill]
          · simp [monitorTickService, halook, hneg, hen, hfa, hst,
                  badUnderRegLock, isSpawnOrKill]
        · have hsfn : ¬(svc.enabled = true ∧ svc.failed = false) := by
            intro hcon
            exact absurd (by simp [hcon.1, hcon.2]) hsf
          simp [monitorTickService, halook, hneg, hsfn,
                badUnderRegLock, isSpawnOrKill]
  · -- enable handler never spawns or kills under the registry lock
    cases halook : alookup st.services name with
    | none => simp [enable_service_handler, halook, badUnderRegLock, isSpawnOrKill]
    | some svc =>
      by_cases hmem : name ∈ procs
      · simp [enable_service_handler, halook, hmem, persistEvents,
              badUnderRegLock, isSpawnOrKill]
      · by_cases hst : startOk = true
        · simp [enable_service_handler, halook, hmem, hst, persistEvents,
                badUnderRegLock, isSpawnOrKill]
        · simp [enable_service_handler, halook, hmem, hst, persistEvents,
                badUnderRegLock, isSpawnOrKill]
  · -- enable handler performs no probe at all
    cases halook : alookup st.services name with
    | none => simp [enable_service_handler, halook, badUnderRegLock, isProbe]
    | some svc =>
      by_cases hmem : name ∈ procs
      · simp [enable_service_handler, halook, hmem, persistEvents,
              badUnderRegLock, isProbe]
      · by_cases hst : startOk = true
        · simp [enable_service_handler, halook, hmem, hst, persistEvents,
                badUnderRegLock, isProbe]
        · simp [enable_service_handler, halook, hmem, hst, persistEvents,
                badUnderRegLock, isProbe]
  · -- disable handler never kills under the registry lock
    cases halook : alookup st.services name with
    | none => simp [disable_service_handler, halook, badUnderRegLock, isSpawnOrKill]
    | some svc =>
      by_cases hmem : name ∈ procs
      · simp [disable_service_handler, halook, hmem, stopServiceEvents,
              persistEvents, badUnderRegLock, isSpawnOrKill]
      · simp [disable_service_handler, halook, hmem, stopServiceEvents,
              persistEvents, badUnderRegLock, isSpawnOrKill]
  · -- disable handler performs no probe at all
    cases halook : alookup st.services name with
    | none => simp [disable_service_handler, halook, badUnderRegLock, isProbe]
    | some svc =>
      by_cases hmem : name ∈ procs
      · simp [disable_service_handler, halook, hmem, stopServiceEvents,
              persistEvents, badUnderRegLock, isProbe]
      · simp [disable_service_handler, halook, hmem, stopServiceEvents,
              persistEvents, badUnderRegLock, isProbe]
  · -- port allocation neither spawns nor kills
    cases sname with
    | none =>
      cases pport with
      | none => simp [allocate_port_handler, badUnderRegLock, isSpawnOrKill]
      | some p => simp [allocate_port_handler, badUnderRegLock, isSpawnOrKill]
    | some n =>
      cases pport with
      | none => simp [allocate_port_handler, badUnderRegLock, isSpawnOrKill]
      | some p =>
        by_cases hfree : inUse (p % 65536) = true
        · cases hfind : find_available_port inUse 6000 7000 with
          | none => simp [allocate_port_handler, is_port_in_use, hfree, hfind,
                          badUnderRegLock, isSpawnOrKill]
          | some np => simp [allocate_port_handler, is_port_in_use, hfree, hfind,
                             badUnderRegLock, isSpawnOrKill]
        · simp [allocate_port_handler, is_port_in_use, hfree,
                badUnderRegLock, isSpawnOrKill]
  · -- but the monitor probes an alive service with the registry lock held
    intro h hp ha
    have hmem : service.name ∈ procs := by simpa using hp
    by_cases hh : (!check_service_health env.probe) = true
    · by_cases hcnt : 2 ≤ (alookup fails service.name).getD 0 ∧
          0 < service.boot_attempts
      · by_cases hst : env.startOk = true
        · simp [monitorTickService, h, hh, hcnt, hst, hmem, ha,
                stopServiceEvents, badUnderRegLock, isProbe]
        · simp [monitorTickService, h, hh, hcnt, hst, hmem, ha,
                stopServiceEvents, badUnderRegLock, isProbe]
      · simp [monitorTickService, h, hh, hcnt, hmem, ha,
              badUnderRegLock, isProbe]
    · simp [monitorTickService, h, hh, hmem, ha,
            badUnderRegLock, isProbe]


/-- Witness for C4 at a concrete alive service: its probe happens under the
registry lock. -/
theorem C4_registry_lock_discipline_witness :
    alookup [("rag", sampleService)] sampleService.name = some sampleService ∧
    (["rag"] : List String).contains sampleService.name = true ∧
    badUnderRegLock isProbe
      (monitorTickService sampleService [("rag", sampleService)] ["rag"] []
        ⟨true, ProbeResult.err, true⟩).events 0 = true :=
  ⟨by decide, by decide,
   (C4_registry_lock_discipline sampleService [("rag", sampleService)] ["rag"]
      [] ⟨true, ProbeResult.err, true⟩ ⟨[], []⟩ "x" true (fun _ => false)
      none none).2.2.2.2.2.2 (by decide) (by decide) rfl⟩

end Warden